import Mathlib

/-!
Verification of the integration fabric of the llm-policy-engine repository.

The embedding covers, from the source under study:
  - `config.rs`: the `IntegrationsConfig` structure and its defaults;
  - `integration/mod.rs`: the `Integrations` registry, `from_config`,
    `any_configured`, `any_upstream_configured`;
  - `integration/schema_registry.rs`, `integration/config_manager.rs`,
    `integration/observatory.rs`: the three Phase 2B adapters, their
    constructors, path building, batch wrappers and health checks.

The Transport Core (`integration/client.rs`) and the six Phase 1 clients
(shield, costops, governance, edge_agent, incident_manager, sentinel) are
not part of the sources under study; where the development needs them they
are modelled from the specification, and each such definition is marked in
its documentation.

Network effects are shallow-embedded: a call made by an adapter is
represented by the `Call` value it issues (method, full URL, request body),
and the response side is represented by the pure classification function
`IntegrationClient.exchange` applied to the abstract outcome
(`HttpOutcome`) of the wire exchange. Rust `Duration` values are carried
as their millisecond count, string formatting is string concatenation, and
`Arc` sharing is erased (values are immutable in both settings).
-/

namespace LlmPolicyEngine

/-- Rust std::time::Duration as used here: always built with
Duration::from_millis, so carried as the number of milliseconds. -/
abbrev Duration := Nat

/-- External service integration configuration (config.rs,
struct IntegrationsConfig). -/
structure IntegrationsConfig where
  shield_url : Option String
  costops_url : Option String
  governance_url : Option String
  edge_agent_url : Option String
  incident_manager_url : Option String
  sentinel_url : Option String
  schema_registry_url : Option String
  config_manager_url : Option String
  observatory_url : Option String
  timeout_ms : Nat
  fail_on_error : Bool

/-- Default for IntegrationsConfig (config.rs, impl Default for
IntegrationsConfig): every URL absent, timeout_ms 5000, fail_on_error
false. -/
def IntegrationsConfig.default : IntegrationsConfig :=
  { shield_url := none
    costops_url := none
    governance_url := none
    edge_agent_url := none
    incident_manager_url := none
    sentinel_url := none
    schema_registry_url := none
    config_manager_url := none
    observatory_url := none
    timeout_ms := 5000
    fail_on_error := false }

/-- IntegrationsConfig::timeout (config.rs): Duration::from_millis applied
to timeout_ms, hence the identity on the millisecond count. -/
def IntegrationsConfig.timeout (c : IntegrationsConfig) : Duration :=
  c.timeout_ms

/-- Modelled from the spec: the Transport Core type `IntegrationClient`
lives in `integration/client.rs`, which is not among the sources under
study. Per the spec its state is the endpoint descriptor "(base URL,
request timeout) — owned by the Transport Core instance; immutable after
construction". -/
structure IntegrationClient where
  base_url : String
  timeout : Duration

/-- Modelled from the spec: `IntegrationClient::new` takes a base URL and
a timeout, performs no I/O and cannot fail, so it is plain record
construction. -/
def IntegrationClient.new (base_url : String) (timeout : Duration) :
    IntegrationClient :=
  { base_url := base_url, timeout := timeout }

/-- Abstract outcome of one wire exchange, the environment side of a call:
either the connection could not be established (refused, DNS, TLS), or the
configured timeout elapsed first, or a response arrived with a status code
and a raw body. -/
inductive HttpOutcome where
  | noConnection (msg : String)
  | timedOut
  | response (status : Nat) (body : String)

/-- Modelled from the spec: the shared failure taxonomy of the Transport
Core (`integration/client.rs`, not among the sources under study) —
TransportError, Timeout, RemoteError (carrying the status and any error
body), DecodeError. -/
inductive IntegrationError where
  | TransportError (msg : String)
  | Timeout
  | RemoteError (status : Nat) (body : String)
  | DecodeError (body : String)

/-- Result type of every Transport Core call: a decoded value or a
classified failure. -/
abbrev IntegrationResult (T : Type) := Except IntegrationError T

/-- Success status range: 2xx. -/
def is2xx (status : Nat) : Bool :=
  200 ≤ status && status ≤ 299

/-- Modelled from the spec: the response classification performed by the
Transport Core for both `get` and `post` (`integration/client.rs`, not
among the sources under study). On a 2xx response the body is deserialized
into T (DecodeError if that fails); a non-2xx response yields RemoteError
with the original status and body; no connection yields TransportError;
timeout expiry yields Timeout. The function is pure: nothing is retried,
logged or suppressed. -/
def IntegrationClient.exchange {T : Type} (decode : String → Option T) :
    HttpOutcome → IntegrationResult T
  | .noConnection msg => .error (.TransportError msg)
  | .timedOut => .error .Timeout
  | .response status body =>
      if is2xx status then
        match decode body with
        | some v => .ok v
        | none => .error (.DecodeError body)
      else
        .error (.RemoteError status body)

/-- Collapse an IntegrationResult to a health boolean: true exactly on
success. -/
def healthOf {T : Type} : IntegrationResult T → Bool
  | .ok _ => true
  | .error _ => false

/-- Modelled from the spec: `IntegrationClient::health_check` issues a
lightweight probe and returns true only on a 2xx response within budget;
every failure kind collapses to false and no error propagates. The probe
ignores the body, so its decoder accepts anything. -/
def IntegrationClient.health_check (_c : IntegrationClient)
    (o : HttpOutcome) : Bool :=
  healthOf (IntegrationClient.exchange (fun _ => some ()) o)

/-- HTTP method of a call. -/
inductive HttpMethod where
  | GET
  | POST

/-- The request an adapter operation hands to the Transport Core: method,
full URL (base URL with the path appended) and, for POST, the typed body.
Each adapter operation issues exactly one such call and returns the
classified result of the exchange unchanged. -/
structure Call (B : Type) where
  method : HttpMethod
  url : String
  body : Option B

/-- Modelled from the spec: `IntegrationClient::get` issues a read request
at base_url + path with no body. -/
def IntegrationClient.get {B : Type} (c : IntegrationClient)
    (path : String) : Call B :=
  { method := .GET, url := c.base_url ++ path, body := none }

/-- Modelled from the spec: `IntegrationClient::post` issues a write
request at base_url + path carrying the serialized body. -/
def IntegrationClient.post {B : Type} (c : IntegrationClient)
    (path : String) (body : B) : Call B :=
  { method := .POST, url := c.base_url ++ path, body := some body }

/-- JSON values (serde_json::Value). Number literals are carried as their
text: no claim inspects a JSON value, they are moved opaquely. -/
inductive Json where
  | null
  | bool (b : Bool)
  | num (lit : String)
  | str (s : String)
  | arr (xs : List Json)
  | obj (fields : List (String × Json))

/-- Policy document structure for schema validation
(schema_registry.rs, struct PolicyDocumentSchema). -/
structure PolicyDocumentSchema where
  api_version : String
  kind : String
  policies : List Json

/-- Rule structure for schema validation (schema_registry.rs,
struct RuleSchema). -/
structure RuleSchema where
  id : String
  name : String
  condition : Json
  action : Json

/-- Schema compatibility levels (schema_registry.rs,
enum CompatibilityLevel). -/
inductive CompatibilityLevel where
  | none
  | backward
  | forward
  | full
  | backwardTransitive
  | forwardTransitive
  | fullTransitive

/-- Request for checking schema compatibility (schema_registry.rs,
struct CompatibilityCheckRequest). -/
structure CompatibilityCheckRequest where
  subject : String
  schema : Json
  compatibility_level : CompatibilityLevel

/-- A validation error (schema_registry.rs, struct ValidationError). -/
structure ValidationError where
  path : String
  message : String
  code : Option String

/-- A validation warning (schema_registry.rs, struct ValidationWarning). -/
structure ValidationWarning where
  path : String
  message : String

/-- Result of a schema validation operation (schema_registry.rs,
struct ValidationResult). -/
structure ValidationResult where
  valid : Bool
  errors : List ValidationError
  warnings : List ValidationWarning

/-- impl Default for ValidationResult (schema_registry.rs): valid true,
no errors, no warnings. -/
def ValidationResult.default : ValidationResult :=
  { valid := true, errors := [], warnings := [] }

/-- A compatibility issue (schema_registry.rs, struct CompatibilityIssue). -/
structure CompatibilityIssue where
  issue_type : String
  description : String
  path : Option String

/-- Result of a compatibility check (schema_registry.rs,
struct CompatibilityResult). -/
structure CompatibilityResult where
  compatible : Bool
  issues : List CompatibilityIssue

/-- impl Default for CompatibilityResult (schema_registry.rs): compatible
true, no issues. -/
def CompatibilityResult.default : CompatibilityResult :=
  { compatible := true, issues := [] }

/-- Client for consuming schema definitions from LLM Schema Registry
(schema_registry.rs, struct SchemaRegistryAdapter). -/
structure SchemaRegistryAdapter where
  client : IntegrationClient

/-- SchemaRegistryAdapter::new (schema_registry.rs). -/
def SchemaRegistryAdapter.new (base_url : String) (timeout : Duration) :
    SchemaRegistryAdapter :=
  { client := IntegrationClient.new base_url timeout }

/-- SchemaRegistryAdapter::get_schema (schema_registry.rs): GET at
/api/v1/schemas/<subject>/latest. -/
def SchemaRegistryAdapter.get_schema (a : SchemaRegistryAdapter)
    (subject : String) : Call Unit :=
  a.client.get ("/api/v1/schemas/" ++ subject ++ "/latest")

/-- SchemaRegistryAdapter::get_schema_version (schema_registry.rs): GET at
/api/v1/schemas/<subject>/versions/<version>; the u32 version is printed
in decimal. -/
def SchemaRegistryAdapter.get_schema_version (a : SchemaRegistryAdapter)
    (subject : String) (version : Nat) : Call Unit :=
  a.client.get
    ("/api/v1/schemas/" ++ subject ++ "/versions/" ++ toString version)

/-- SchemaRegistryAdapter::validate_policy_document (schema_registry.rs):
POST of the document to /api/v1/validate/policy-document. -/
def SchemaRegistryAdapter.validate_policy_document
    (a : SchemaRegistryAdapter) (document : PolicyDocumentSchema) :
    Call PolicyDocumentSchema :=
  a.client.post "/api/v1/validate/policy-document" document

/-- SchemaRegistryAdapter::validate_rule_structure (schema_registry.rs):
POST of the rule to /api/v1/validate/policy-rule. -/
def SchemaRegistryAdapter.validate_rule_structure
    (a : SchemaRegistryAdapter) (rule : RuleSchema) : Call RuleSchema :=
  a.client.post "/api/v1/validate/policy-rule" rule

/-- SchemaRegistryAdapter::check_compatibility (schema_registry.rs): POST
of the request to /api/v1/compatibility/check. -/
def SchemaRegistryAdapter.check_compatibility (a : SchemaRegistryAdapter)
    (request : CompatibilityCheckRequest) : Call CompatibilityCheckRequest :=
  a.client.post "/api/v1/compatibility/check" request

/-- SchemaRegistryAdapter::list_policy_schemas (schema_registry.rs): GET
at /api/v1/schemas?filter=policy. -/
def SchemaRegistryAdapter.list_policy_schemas (a : SchemaRegistryAdapter) :
    Call Unit :=
  a.client.get "/api/v1/schemas?filter=policy"

/-- SchemaRegistryAdapter::health_check (schema_registry.rs): delegates to
the Transport Core probe. -/
def SchemaRegistryAdapter.health_check (a : SchemaRegistryAdapter) :
    HttpOutcome → Bool :=
  a.client.health_check

/-- A configuration value from Config Manager (config_manager.rs,
struct ConfigValue); value_type and metadata omitted here because no claim
inspects them and ConfigValue never appears in a request body. -/
structure ConfigValue where
  key : String
  value : Json

/-- Batch configuration request (config_manager.rs,
struct BatchConfigRequest); the Rust field called namespace is written
«namespace» because namespace is a Lean keyword. -/
structure BatchConfigRequest where
  «namespace» : String
  keys : List String

/-- Access validation request for RBAC (config_manager.rs,
struct AccessValidationRequest); the HashMap context is carried as an
association list. -/
structure AccessValidationRequest where
  subject : String
  resource : String
  action : String
  context : List (String × String)

/-- Access validation result (config_manager.rs,
struct AccessValidationResult). -/
structure AccessValidationResult where
  allowed : Bool
  reason : Option String
  policies : List String

/-- impl Default for AccessValidationResult (config_manager.rs): allowed
false, no reason, no policies. -/
def AccessValidationResult.default : AccessValidationResult :=
  { allowed := false, reason := none, policies := [] }

/-- Client for consuming configuration from LLM Config Manager
(config_manager.rs, struct ConfigManagerAdapter). -/
structure ConfigManagerAdapter where
  client : IntegrationClient
  «namespace» : String

/-- ConfigManagerAdapter::new (config_manager.rs): namespace fixed to
policy-engine. -/
def ConfigManagerAdapter.new (base_url : String) (timeout : Duration) :
    ConfigManagerAdapter :=
  { client := IntegrationClient.new base_url timeout
    «namespace» := "policy-engine" }

/-- ConfigManagerAdapter::with_namespace (config_manager.rs): custom
namespace. -/
def ConfigManagerAdapter.with_namespace (base_url : String)
    (timeout : Duration) (ns : String) : ConfigManagerAdapter :=
  { client := IntegrationClient.new base_url timeout, «namespace» := ns }

/-- ConfigManagerAdapter::get_config (config_manager.rs): GET at
/api/v1/config/<namespace>/<key>. -/
def ConfigManagerAdapter.get_config (a : ConfigManagerAdapter)
    (key : String) : Call Unit :=
  a.client.get ("/api/v1/config/" ++ a.«namespace» ++ "/" ++ key)

/-- ConfigManagerAdapter::get_configs (config_manager.rs): POST of a
BatchConfigRequest that pairs the adapter namespace with the keys, each
converted to an owned String in the given order, to /api/v1/config/batch. -/
def ConfigManagerAdapter.get_configs (a : ConfigManagerAdapter)
    (keys : List String) : Call BatchConfigRequest :=
  a.client.post "/api/v1/config/batch"
    { «namespace» := a.«namespace», keys := keys }

/-- ConfigManagerAdapter::get_enforcement_params (config_manager.rs): GET
at /api/v1/config/<namespace>/enforcement. -/
def ConfigManagerAdapter.get_enforcement_params (a : ConfigManagerAdapter) :
    Call Unit :=
  a.client.get ("/api/v1/config/" ++ a.«namespace» ++ "/enforcement")

/-- ConfigManagerAdapter::get_rule_thresholds (config_manager.rs): GET at
/api/v1/config/<namespace>/thresholds. -/
def ConfigManagerAdapter.get_rule_thresholds (a : ConfigManagerAdapter) :
    Call Unit :=
  a.client.get ("/api/v1/config/" ++ a.«namespace» ++ "/thresholds")

/-- ConfigManagerAdapter::get_policy_settings (config_manager.rs): GET at
/api/v1/config/<namespace>/policy-settings. -/
def ConfigManagerAdapter.get_policy_settings (a : ConfigManagerAdapter) :
    Call Unit :=
  a.client.get ("/api/v1/config/" ++ a.«namespace» ++ "/policy-settings")

/-- ConfigManagerAdapter::get_feature_flags (config_manager.rs): GET at
/api/v1/config/<namespace>/features. -/
def ConfigManagerAdapter.get_feature_flags (a : ConfigManagerAdapter) :
    Call Unit :=
  a.client.get ("/api/v1/config/" ++ a.«namespace» ++ "/features")

/-- ConfigManagerAdapter::get_config_version (config_manager.rs): GET at
/api/v1/config/<namespace>/version. -/
def ConfigManagerAdapter.get_config_version (a : ConfigManagerAdapter) :
    Call Unit :=
  a.client.get ("/api/v1/config/" ++ a.«namespace» ++ "/version")

/-- ConfigManagerAdapter::validate_access (config_manager.rs): POST of the
request to /api/v1/rbac/validate. -/
def ConfigManagerAdapter.validate_access (a : ConfigManagerAdapter)
    (request : AccessValidationRequest) : Call AccessValidationRequest :=
  a.client.post "/api/v1/rbac/validate" request

/-- ConfigManagerAdapter::health_check (config_manager.rs): delegates to
the Transport Core probe. -/
def ConfigManagerAdapter.health_check (a : ConfigManagerAdapter) :
    HttpOutcome → Bool :=
  a.client.health_check

/-- Decision outcome for telemetry (observatory.rs, enum DecisionOutcome). -/
inductive DecisionOutcome where
  | allow
  | deny
  | warn
  | modify
  | error

/-- A policy evaluation event for Observatory (observatory.rs,
struct PolicyEvaluationEvent); the f64 duration is carried as a Float and
the HashMaps as association lists — no claim computes with them. -/
structure PolicyEvaluationEvent where
  event_id : String
  timestamp : String
  trace_id : Option String
  span_id : Option String
  policy_id : String
  rule_id : Option String
  decision : DecisionOutcome
  duration_ms : Float
  cached : Bool
  context : List (String × String)
  labels : List (String × String)

/-- Batch event request (observatory.rs, struct BatchEventRequest). -/
structure BatchEventRequest where
  service : String
  events : List PolicyEvaluationEvent

/-- Client for integrating with LLM Observatory (observatory.rs,
struct ObservatoryAdapter). -/
structure ObservatoryAdapter where
  client : IntegrationClient
  service_name : String

/-- ObservatoryAdapter::new (observatory.rs): service name fixed to
llm-policy-engine. -/
def ObservatoryAdapter.new (base_url : String) (timeout : Duration) :
    ObservatoryAdapter :=
  { client := IntegrationClient.new base_url timeout
    service_name := "llm-policy-engine" }

/-- ObservatoryAdapter::with_service_name (observatory.rs): custom service
name. -/
def ObservatoryAdapter.with_service_name (base_url : String)
    (timeout : Duration) (service_name : String) : ObservatoryAdapter :=
  { client := IntegrationClient.new base_url timeout
    service_name := service_name }

/-- ObservatoryAdapter::emit_evaluation_event (observatory.rs): POST of
the event to /api/v1/events/policy-evaluation. -/
def ObservatoryAdapter.emit_evaluation_event (a : ObservatoryAdapter)
    (event : PolicyEvaluationEvent) : Call PolicyEvaluationEvent :=
  a.client.post "/api/v1/events/policy-evaluation" event

/-- ObservatoryAdapter::emit_evaluation_events_batch (observatory.rs):
POST of a BatchEventRequest pairing the adapter service name with the
events, order preserved, to /api/v1/events/batch. -/
def ObservatoryAdapter.emit_evaluation_events_batch (a : ObservatoryAdapter)
    (events : List PolicyEvaluationEvent) : Call BatchEventRequest :=
  a.client.post "/api/v1/events/batch"
    { service := a.service_name, events := events }

/-- ObservatoryAdapter::get_trace_context (observatory.rs): GET at
/api/v1/traces/<trace_id>/context. -/
def ObservatoryAdapter.get_trace_context (a : ObservatoryAdapter)
    (trace_id : String) : Call Unit :=
  a.client.get ("/api/v1/traces/" ++ trace_id ++ "/context")

/-- ObservatoryAdapter::get_current_metrics (observatory.rs): GET whose
query string carries the service and, only when supplied, the model. -/
def ObservatoryAdapter.get_current_metrics (a : ObservatoryAdapter)
    (service : String) (model : Option String) : Call Unit :=
  let path := match model with
    | some m =>
        "/api/v1/metrics/current?service=" ++ service ++ "&model=" ++ m
    | none => "/api/v1/metrics/current?service=" ++ service
  a.client.get path

/-- ObservatoryAdapter::health_check (observatory.rs): delegates to the
Transport Core probe. -/
def ObservatoryAdapter.health_check (a : ObservatoryAdapter) :
    HttpOutcome → Bool :=
  a.client.health_check

/-- Modelled from the spec: ShieldClient (integration/shield.rs, not among
the sources under study). Per the spec every adapter wraps one Transport
Core, construction takes a base URL and a timeout and cannot fail, and
health_check delegates to the Transport Core probe. -/
structure ShieldClient where
  client : IntegrationClient

/-- Modelled from the spec: ShieldClient::new builds its own Transport
Core from the base URL and timeout. -/
def ShieldClient.new (base_url : String) (timeout : Duration) :
    ShieldClient :=
  { client := IntegrationClient.new base_url timeout }

/-- Modelled from the spec: ShieldClient::health_check delegates to the
Transport Core probe. -/
def ShieldClient.health_check (a : ShieldClient) : HttpOutcome → Bool :=
  a.client.health_check

/-- Modelled from the spec: CostOpsClient (integration/costops.rs, not
among the sources under study); same uniform adapter shape. -/
structure CostOpsClient where
  client : IntegrationClient

/-- Modelled from the spec: CostOpsClient::new builds its own Transport
Core from the base URL and timeout. -/
def CostOpsClient.new (base_url : String) (timeout : Duration) :
    CostOpsClient :=
  { client := IntegrationClient.new base_url timeout }

/-- Modelled from the spec: CostOpsClient::health_check delegates to the
Transport Core probe. -/
def CostOpsClient.health_check (a : CostOpsClient) : HttpOutcome → Bool :=
  a.client.health_check

/-- Modelled from the spec: GovernanceClient (integration/governance.rs,
not among the sources under study); same uniform adapter shape. -/
structure GovernanceClient where
  client : IntegrationClient

/-- Modelled from the spec: GovernanceClient::new builds its own Transport
Core from the base URL and timeout. -/
def GovernanceClient.new (base_url : String) (timeout : Duration) :
    GovernanceClient :=
  { client := IntegrationClient.new base_url timeout }

/-- Modelled from the spec: GovernanceClient::health_check delegates to
the Transport Core probe. -/
def GovernanceClient.health_check (a : GovernanceClient) :
    HttpOutcome → Bool :=
  a.client.health_check

/-- Modelled from the spec: EdgeAgentClient (integration/edge_agent.rs,
not among the sources under study); same uniform adapter shape. -/
structure EdgeAgentClient where
  client : IntegrationClient

/-- Modelled from the spec: EdgeAgentClient::new builds its own Transport
Core from the base URL and timeout. -/
def EdgeAgentClient.new (base_url : String) (timeout : Duration) :
    EdgeAgentClient :=
  { client := IntegrationClient.new base_url timeout }

/-- Modelled from the spec: EdgeAgentClient::health_check delegates to the
Transport Core probe. -/
def EdgeAgentClient.health_check (a : EdgeAgentClient) :
    HttpOutcome → Bool :=
  a.client.health_check

/-- Modelled from the spec: IncidentManagerClient
(integration/incident_manager.rs, not among the sources under study); same
uniform adapter shape. -/
structure IncidentManagerClient where
  client : IntegrationClient

/-- Modelled from the spec: IncidentManagerClient::new builds its own
Transport Core from the base URL and timeout. -/
def IncidentManagerClient.new (base_url : String) (timeout : Duration) :
    IncidentManagerClient :=
  { client := IntegrationClient.new base_url timeout }

/-- Modelled from the spec: IncidentManagerClient::health_check delegates
to the Transport Core probe. -/
def IncidentManagerClient.health_check (a : IncidentManagerClient) :
    HttpOutcome → Bool :=
  a.client.health_check

/-- Modelled from the spec: SentinelClient (integration/sentinel.rs, not
among the sources under study); same uniform adapter shape. -/
structure SentinelClient where
  client : IntegrationClient

/-- Modelled from the spec: SentinelClient::new builds its own Transport
Core from the base URL and timeout. -/
def SentinelClient.new (base_url : String) (timeout : Duration) :
    SentinelClient :=
  { client := IntegrationClient.new base_url timeout }

/-- Modelled from the spec: SentinelClient::health_check delegates to the
Transport Core probe. -/
def SentinelClient.health_check (a : SentinelClient) :
    HttpOutcome → Bool :=
  a.client.health_check

/-- Collection of all integration clients (integration/mod.rs,
struct Integrations); the Arc wrappers are erased, every value here is
immutable. -/
structure Integrations where
  shield : Option ShieldClient
  costops : Option CostOpsClient
  governance : Option GovernanceClient
  edge_agent : Option EdgeAgentClient
  incident_manager : Option IncidentManagerClient
  sentinel : Option SentinelClient
  schema_registry : Option SchemaRegistryAdapter
  config_manager : Option ConfigManagerAdapter
  observatory : Option ObservatoryAdapter

/-- Integrations::from_config (integration/mod.rs): each slot is the map
of the corresponding optional URL through the adapter constructor applied
with the single shared timeout. -/
def Integrations.from_config (config : IntegrationsConfig) : Integrations :=
  { shield := config.shield_url.map
      (fun url => ShieldClient.new url config.timeout)
    costops := config.costops_url.map
      (fun url => CostOpsClient.new url config.timeout)
    governance := config.governance_url.map
      (fun url => GovernanceClient.new url config.timeout)
    edge_agent := config.edge_agent_url.map
      (fun url => EdgeAgentClient.new url config.timeout)
    incident_manager := config.incident_manager_url.map
      (fun url => IncidentManagerClient.new url config.timeout)
    sentinel := config.sentinel_url.map
      (fun url => SentinelClient.new url config.timeout)
    schema_registry := config.schema_registry_url.map
      (fun url => SchemaRegistryAdapter.new url config.timeout)
    config_manager := config.config_manager_url.map
      (fun url => ConfigManagerAdapter.new url config.timeout)
    observatory := config.observatory_url.map
      (fun url => ObservatoryAdapter.new url config.timeout) }

/-- Integrations::any_configured (integration/mod.rs): true when any of
the nine slots is populated. -/
def Integrations.any_configured (self : Integrations) : Bool :=
  self.shield.isSome
    || self.costops.isSome
    || self.governance.isSome
    || self.edge_agent.isSome
    || self.incident_manager.isSome
    || self.sentinel.isSome
    || self.schema_registry.isSome
    || self.config_manager.isSome
    || self.observatory.isSome

/-- Integrations::any_upstream_configured (integration/mod.rs): true when
any of the three Phase 2B slots is populated. -/
def Integrations.any_upstream_configured (self : Integrations) : Bool :=
  self.schema_registry.isSome
    || self.config_manager.isSome
    || self.observatory.isSome

/-- Scenario configuration of the spec: the default configuration with
only observatory_url set to http://obs:9000. -/
def obsOnlyConfig : IntegrationsConfig :=
  { IntegrationsConfig.default with observatory_url := some "http://obs:9000" }

/-- Concrete decoder used to exercise the exchange classification: accepts
exactly the body "7". -/
def decodeNat7 : String → Option Nat :=
  fun s => if s = "7" then some 7 else none

/-- Mapping an optional value preserves whether it is populated. -/
theorem isSome_map_eq {α β : Type} (f : α → β) (o : Option α) :
    (o.map f).isSome = o.isSome := by
  cases o <;> rfl

/-- C1: for every IntegrationsConfig, Integrations::from_config fills each
of the nine registry slots with the adapter built from the corresponding
URL and the single shared timeout exactly when that URL is present, and
leaves the slot empty when the URL is absent, so no slot is ever in a
partially configured state. -/
theorem from_config_populates_slots (config : IntegrationsConfig) :
    ((Integrations.from_config config).shield
      = config.shield_url.map (fun url => ShieldClient.new url config.timeout))
    ∧ ((Integrations.from_config config).costops
      = config.costops_url.map (fun url => CostOpsClient.new url config.timeout))
    ∧ ((Integrations.from_config config).governance
      = config.governance_url.map
          (fun url => GovernanceClient.new url config.timeout))
    ∧ ((Integrations.from_config config).edge_agent
      = config.edge_agent_url.map
          (fun url => EdgeAgentClient.new url config.timeout))
    ∧ ((Integrations.from_config config).incident_manager
      = config.incident_manager_url.map
          (fun url => IncidentManagerClient.new url config.timeout))
    ∧ ((Integrations.from_config config).sentinel
      = config.sentinel_url.map
          (fun url => SentinelClient.new url config.timeout))
    ∧ ((Integrations.from_config config).schema_registry
      = config.schema_registry_url.map
          (fun url => SchemaRegistryAdapter.new url config.timeout))
    ∧ ((Integrations.from_config config).config_manager
      = config.config_manager_url.map
          (fun url => ConfigManagerAdapter.new url config.timeout))
    ∧ ((Integrations.from_config config).observatory
      = config.observatory_url.map
          (fun url => ObservatoryAdapter.new url config.timeout))
    ∧ ((Integrations.from_config config).shield.isSome
        = config.shield_url.isSome)
    ∧ ((Integrations.from_config config).costops.isSome
        = config.costops_url.isSome)
    ∧ ((Integrations.from_config config).governance.isSome
        = config.governance_url.isSome)
    ∧ ((Integrations.from_config config).edge_agent.isSome
        = config.edge_agent_url.isSome)
    ∧ ((Integrations.from_config config).incident_manager.isSome
        = config.incident_manager_url.isSome)
    ∧ ((Integrations.from_config config).sentinel.isSome
        = config.sentinel_url.isSome)
    ∧ ((Integrations.from_config config).schema_registry.isSome
        = config.schema_registry_url.isSome)
    ∧ ((Integrations.from_config config).config_manager.isSome
        = config.config_manager_url.isSome)
    ∧ ((Integrations.from_config config).observatory.isSome
        = config.observatory_url.isSome) := by
  refine ⟨rfl, rfl, rfl, rfl, rfl, rfl, rfl, rfl, rfl,
    ?_, ?_, ?_, ?_, ?_, ?_, ?_, ?_, ?_⟩ <;>
  exact isSome_map_eq _ _

/-- C2: any_configured is true exactly when one of the nine slots is
populated, any_upstream_configured is true exactly when one of the three
Phase 2B slots is populated, and a registry built from a config whose only
URL is observatory_url has observatory present, every other slot empty,
and both aggregate checks true. -/
theorem any_configured_reflects_slots (r : Integrations) :
    (r.any_configured = true ↔
      (r.shield.isSome = true ∨ r.costops.isSome = true
        ∨ r.governance.isSome = true ∨ r.edge_agent.isSome = true
        ∨ r.incident_manager.isSome = true ∨ r.sentinel.isSome = true
        ∨ r.schema_registry.isSome = true ∨ r.config_manager.isSome = true
        ∨ r.observatory.isSome = true))
    ∧ (r.any_upstream_configured = true ↔
      (r.schema_registry.isSome = true ∨ r.config_manager.isSome = true
        ∨ r.observatory.isSome = true))
    ∧ (Integrations.from_config obsOnlyConfig).observatory.isSome = true
    ∧ (Integrations.from_config obsOnlyConfig).observatory
        = some (ObservatoryAdapter.new "http://obs:9000" 5000)
    ∧ (Integrations.from_config obsOnlyConfig).shield = none
    ∧ (Integrations.from_config obsOnlyConfig).costops = none
    ∧ (Integrations.from_config obsOnlyConfig).governance = none
    ∧ (Integrations.from_config obsOnlyConfig).edge_agent = none
    ∧ (Integrations.from_config obsOnlyConfig).incident_manager = none
    ∧ (Integrations.from_config obsOnlyConfig).sentinel = none
    ∧ (Integrations.from_config obsOnlyConfig).schema_registry = none
    ∧ (Integrations.from_config obsOnlyConfig).config_manager = none
    ∧ (Integrations.from_config obsOnlyConfig).any_configured = true
    ∧ (Integrations.from_config obsOnlyConfig).any_upstream_configured
        = true := by
  refine ⟨?_, ?_, rfl, rfl, rfl, rfl, rfl, rfl, rfl, rfl, rfl, rfl, rfl, rfl⟩
  · simp only [Integrations.any_configured, Bool.or_eq_true]
    tauto
  · simp only [Integrations.any_upstream_configured, Bool.or_eq_true]
    tauto

/-- C3: the Transport Core classifies the outcome of every call
exhaustively and exclusively — no connection yields TransportError, budget
expiry yields Timeout, a non-2xx response yields RemoteError carrying the
original status, a 2xx response whose body does not decode yields
DecodeError, and a 2xx response that decodes yields the decoded value; the
classification is a pure function, so nothing is retried, logged or
suppressed. -/
theorem exchange_classifies_outcomes {T : Type} (decode : String → Option T) :
    (∀ msg, IntegrationClient.exchange decode (.noConnection msg)
      = .error (.TransportError msg))
    ∧ (IntegrationClient.exchange decode .timedOut = .error .Timeout)
    ∧ (∀ status body, is2xx status = false →
        IntegrationClient.exchange decode (.response status body)
          = .error (.RemoteError status body))
    ∧ (∀ status body, is2xx status = true → decode body = none →
        IntegrationClient.exchange decode (.response status body)
          = .error (.DecodeError body))
    ∧ (∀ status body v, is2xx status = true → decode body = some v →
        IntegrationClient.exchange decode (.response status body)
          = .ok v) := by
  refine ⟨fun msg => rfl, rfl, ?_, ?_, ?_⟩
  · intro status body h
    simp [IntegrationClient.exchange, h]
  · intro status body h hd
    simp [IntegrationClient.exchange, h, hd]
  · intro status body v h hd
    simp [IntegrationClient.exchange, h, hd]

/-- Witness for C3 at concrete inputs: status 503 is classified as
RemoteError 503, a 2xx response with an undecodable body as DecodeError,
and a 2xx response with a decodable body as the decoded value. -/
theorem exchange_classifies_outcomes_witness :
    IntegrationClient.exchange decodeNat7 (.response 503 "oops")
      = .error (.RemoteError 503 "oops")
    ∧ IntegrationClient.exchange decodeNat7 (.response 200 "bad")
      = .error (.DecodeError "bad")
    ∧ IntegrationClient.exchange decodeNat7 (.response 200 "7") = .ok 7 := by
  refine ⟨?_, ?_, ?_⟩
  · exact (exchange_classifies_outcomes decodeNat7).2.2.1 503 "oops"
      (by decide)
  · exact (exchange_classifies_outcomes decodeNat7).2.2.2.1 200 "bad"
      (by decide) (by decide)
  · exact (exchange_classifies_outcomes decodeNat7).2.2.2.2 200 "7" 7
      (by decide) (by decide)

/-- C4: health_check never propagates an error — every classified failure
collapses to false, the probe answers false on no connection, timeout and
non-2xx responses, answers true exactly on a 2xx response within budget,
and every adapter health_check is the Transport Core probe itself. -/
theorem health_check_never_raises (c : IntegrationClient) :
    (∀ T : Type, ∀ e : IntegrationError, healthOf (T := T) (.error e) = false)
    ∧ (∀ msg, c.health_check (.noConnection msg) = false)
    ∧ (c.health_check .timedOut = false)
    ∧ (∀ status body, is2xx status = false →
        c.health_check (.response status body) = false)
    ∧ (∀ status body, is2xx status = true →
        c.health_check (.response status body) = true)
    ∧ (∀ a : SchemaRegistryAdapter, a.health_check = a.client.health_check)
    ∧ (∀ a : ConfigManagerAdapter, a.health_check = a.client.health_check)
    ∧ (∀ a : ObservatoryAdapter, a.health_check = a.client.health_check)
    ∧ (∀ a : ShieldClient, a.health_check = a.client.health_check)
    ∧ (∀ a : CostOpsClient, a.health_check = a.client.health_check)
    ∧ (∀ a : GovernanceClient, a.health_check = a.client.health_check)
    ∧ (∀ a : EdgeAgentClient, a.health_check = a.client.health_check)
    ∧ (∀ a : IncidentManagerClient, a.health_check = a.client.health_check)
    ∧ (∀ a : SentinelClient, a.health_check = a.client.health_check) := by
  refine ⟨fun T e => rfl, fun msg => rfl, rfl, ?_, ?_,
    fun a => rfl, fun a => rfl, fun a => rfl, fun a => rfl, fun a => rfl,
    fun a => rfl, fun a => rfl, fun a => rfl, fun a => rfl⟩
  · intro status body h
    simp [IntegrationClient.health_check, IntegrationClient.exchange, h,
      healthOf]
  · intro status body h
    simp [IntegrationClient.health_check, IntegrationClient.exchange, h,
      healthOf]

/-- Witness for C4 at concrete inputs: a 500 response probes false and a
200 response probes true. -/
theorem health_check_never_raises_witness :
    (IntegrationClient.new "http://svc" 5000).health_check
      (.response 500 "err") = false
    ∧ (IntegrationClient.new "http://svc" 5000).health_check
      (.response 200 "ok") = true := by
  refine ⟨?_, ?_⟩
  · exact (health_check_never_raises
      (IntegrationClient.new "http://svc" 5000)).2.2.2.1 500 "err" (by decide)
  · exact (health_check_never_raises
      (IntegrationClient.new "http://svc" 5000)).2.2.2.2.1 200 "ok" (by decide)

/-- C5: every public operation of SchemaRegistryAdapter and
ConfigManagerAdapter issues exactly one Transport Core call — represented
by the single Call value the operation returns, whose classified result is
handed back unchanged with no caching, retry or state change — at the path
of the wire contract, with the request body passed through as given. -/
theorem adapter_operations_single_call (a : SchemaRegistryAdapter)
    (b : ConfigManagerAdapter) :
    (∀ subject, a.get_schema subject
      = { method := .GET,
          url := a.client.base_url
            ++ ("/api/v1/schemas/" ++ subject ++ "/latest"),
          body := none })
    ∧ (∀ subject version, a.get_schema_version subject version
      = { method := .GET,
          url := a.client.base_url ++ ("/api/v1/schemas/" ++ subject
            ++ "/versions/" ++ toString version),
          body := none })
    ∧ (∀ document, a.validate_policy_document document
      = { method := .POST,
          url := a.client.base_url ++ "/api/v1/validate/policy-document",
          body := some document })
    ∧ (∀ rule, a.validate_rule_structure rule
      = { method := .POST,
          url := a.client.base_url ++ "/api/v1/validate/policy-rule",
          body := some rule })
    ∧ (∀ request, a.check_compatibility request
      = { method := .POST,
          url := a.client.base_url ++ "/api/v1/compatibility/check",
          body := some request })
    ∧ (a.list_policy_schemas
      = { method := .GET,
          url := a.client.base_url ++ "/api/v1/schemas?filter=policy",
          body := none })
    ∧ (∀ key, b.get_config key
      = { method := .GET,
          url := b.client.base_url
            ++ ("/api/v1/config/" ++ b.«namespace» ++ "/" ++ key),
          body := none })
    ∧ (∀ keys, b.get_configs keys
      = { method := .POST,
          url := b.client.base_url ++ "/api/v1/config/batch",
          body := some { «namespace» := b.«namespace», keys := keys } })
    ∧ (b.get_enforcement_params
      = { method := .GET,
          url := b.client.base_url
            ++ ("/api/v1/config/" ++ b.«namespace» ++ "/enforcement"),
          body := none })
    ∧ (b.get_rule_thresholds
      = { method := .GET,
          url := b.client.base_url
            ++ ("/api/v1/config/" ++ b.«namespace» ++ "/thresholds"),
          body := none })
    ∧ (b.get_policy_settings
      = { method := .GET,
          url := b.client.base_url
            ++ ("/api/v1/config/" ++ b.«namespace» ++ "/policy-settings"),
          body := none })
    ∧ (b.get_feature_flags
      = { method := .GET,
          url := b.client.base_url
            ++ ("/api/v1/config/" ++ b.«namespace» ++ "/features"),
          body := none })
    ∧ (b.get_config_version
      = { method := .GET,
          url := b.client.base_url
            ++ ("/api/v1/config/" ++ b.«namespace» ++ "/version"),
          body := none })
    ∧ (∀ request, b.validate_access request
      = { method := .POST,
          url := b.client.base_url ++ "/api/v1/rbac/validate",
          body := some request }) :=
  ⟨fun _ => rfl, fun _ _ => rfl, fun _ => rfl, fun _ => rfl, fun _ => rfl,
    rfl, fun _ => rfl, fun _ => rfl, rfl, rfl, rfl, rfl, rfl, fun _ => rfl⟩

/-- C6: the batch operations wrap their inputs in a batch request object —
emit_evaluation_events_batch posts the adapter service name with the
events in their given order to /api/v1/events/batch, and get_configs posts
the adapter namespace with the keys in their given order to
/api/v1/config/batch. -/
theorem batch_operations_wrap_inputs (a : ObservatoryAdapter)
    (b : ConfigManagerAdapter) :
    (∀ events, a.emit_evaluation_events_batch events
      = { method := .POST,
          url := a.client.base_url ++ "/api/v1/events/batch",
          body := some { service := a.service_name, events := events } })
    ∧ (∀ keys, b.get_configs keys
      = { method := .POST,
          url := b.client.base_url ++ "/api/v1/config/batch",
          body := some { «namespace» := b.«namespace», keys := keys } }) :=
  ⟨fun _ => rfl, fun _ => rfl⟩

/-- C7: get_current_metrics queries
/api/v1/metrics/current?service=<service>&model=<model> when a model is
supplied and /api/v1/metrics/current?service=<service>, with no model
parameter at all, when it is not. -/
theorem get_current_metrics_query (a : ObservatoryAdapter) :
    (∀ service m, a.get_current_metrics service (some m)
      = { method := .GET,
          url := a.client.base_url ++ ("/api/v1/metrics/current?service="
            ++ service ++ "&model=" ++ m),
          body := none })
    ∧ (∀ service, a.get_current_metrics service none
      = { method := .GET,
          url := a.client.base_url
            ++ ("/api/v1/metrics/current?service=" ++ service),
          body := none }) :=
  ⟨fun _ _ => rfl, fun _ => rfl⟩

/-- C8: adapter construction and registry construction are total pure
functions of their inputs — for every base URL string, however malformed,
and every timeout they return the fully determined value below, performing
no I/O and no validation (URL errors are deferred to first use), and
from_config returns a registry for every configuration. -/
theorem construction_is_total (base_url : String) (timeout : Duration)
    (config : IntegrationsConfig) :
    SchemaRegistryAdapter.new base_url timeout
      = { client := { base_url := base_url, timeout := timeout } }
    ∧ ConfigManagerAdapter.new base_url timeout
      = { client := { base_url := base_url, timeout := timeout },
          «namespace» := "policy-engine" }
    ∧ ObservatoryAdapter.new base_url timeout
      = { client := { base_url := base_url, timeout := timeout },
          service_name := "llm-policy-engine" }
    ∧ Integrations.from_config config
      = { shield := config.shield_url.map
            (fun url => ShieldClient.new url config.timeout)
          costops := config.costops_url.map
            (fun url => CostOpsClient.new url config.timeout)
          governance := config.governance_url.map
            (fun url => GovernanceClient.new url config.timeout)
          edge_agent := config.edge_agent_url.map
            (fun url => EdgeAgentClient.new url config.timeout)
          incident_manager := config.incident_manager_url.map
            (fun url => IncidentManagerClient.new url config.timeout)
          sentinel := config.sentinel_url.map
            (fun url => SentinelClient.new url config.timeout)
          schema_registry := config.schema_registry_url.map
            (fun url => SchemaRegistryAdapter.new url config.timeout)
          config_manager := config.config_manager_url.map
            (fun url => ConfigManagerAdapter.new url config.timeout)
          observatory := config.observatory_url.map
            (fun url => ObservatoryAdapter.new url config.timeout) } :=
  ⟨rfl, rfl, rfl, rfl⟩

/-- C9: ConfigManagerAdapter::new fixes the namespace to policy-engine and
ObservatoryAdapter::new fixes the service name to llm-policy-engine; the
alternative constructors with_namespace and with_service_name install the
given value instead; the namespace determines every namespaced
ConfigManager path and the batch request namespace, and the service name
is the service field of every Observatory batch request. -/
theorem fixed_namespace_and_service_name (base_url : String)
    (timeout : Duration) (ns sn : String) :
    (ConfigManagerAdapter.new base_url timeout).«namespace» = "policy-engine"
    ∧ (ObservatoryAdapter.new base_url timeout).service_name
        = "llm-policy-engine"
    ∧ (ConfigManagerAdapter.with_namespace base_url timeout ns).«namespace»
        = ns
    ∧ (ObservatoryAdapter.with_service_name base_url timeout sn).service_name
        = sn
    ∧ ConfigManagerAdapter.new base_url timeout
        = ConfigManagerAdapter.with_namespace base_url timeout "policy-engine"
    ∧ ObservatoryAdapter.new base_url timeout
        = ObservatoryAdapter.with_service_name base_url timeout
            "llm-policy-engine"
    ∧ (∀ b : ConfigManagerAdapter, ∀ key, (b.get_config key).url
        = b.client.base_url
          ++ ("/api/v1/config/" ++ b.«namespace» ++ "/" ++ key))
    ∧ (∀ b : ConfigManagerAdapter, b.get_enforcement_params.url
        = b.client.base_url
          ++ ("/api/v1/config/" ++ b.«namespace» ++ "/enforcement"))
    ∧ (∀ b : ConfigManagerAdapter, b.get_rule_thresholds.url
        = b.client.base_url
          ++ ("/api/v1/config/" ++ b.«namespace» ++ "/thresholds"))
    ∧ (∀ b : ConfigManagerAdapter, b.get_policy_settings.url
        = b.client.base_url
          ++ ("/api/v1/config/" ++ b.«namespace» ++ "/policy-settings"))
    ∧ (∀ b : ConfigManagerAdapter, b.get_feature_flags.url
        = b.client.base_url
          ++ ("/api/v1/config/" ++ b.«namespace» ++ "/features"))
    ∧ (∀ b : ConfigManagerAdapter, b.get_config_version.url
        = b.client.base_url
          ++ ("/api/v1/config/" ++ b.«namespace» ++ "/version"))
    ∧ (∀ b : ConfigManagerAdapter, ∀ keys, (b.get_configs keys).body
        = some { «namespace» := b.«namespace», keys := keys })
    ∧ (∀ a : ObservatoryAdapter, ∀ events,
        (a.emit_evaluation_events_batch events).body
          = some { service := a.service_name, events := events }) :=
  ⟨rfl, rfl, rfl, rfl, rfl, rfl, fun _ _ => rfl, fun _ => rfl, fun _ => rfl,
    fun _ => rfl, fun _ => rfl, fun _ => rfl, fun _ _ => rfl,
    fun _ _ => rfl⟩

/-- C10: the defaulted decision-carrying response values are asymmetric —
ValidationResult and CompatibilityResult default to passing (valid and
compatible true with empty error, warning and issue lists) while
AccessValidationResult defaults to denied (allowed false). -/
theorem decision_defaults_asymmetric :
    ValidationResult.default.valid = true
    ∧ ValidationResult.default.errors = []
    ∧ ValidationResult.default.warnings = []
    ∧ CompatibilityResult.default.compatible = true
    ∧ CompatibilityResult.default.issues = []
    ∧ AccessValidationResult.default.allowed = false
    ∧ AccessValidationResult.default.reason = none
    ∧ AccessValidationResult.default.policies = [] :=
  ⟨rfl, rfl, rfl, rfl, rfl, rfl, rfl, rfl⟩

end LlmPolicyEngine
